import Mathlib

/-!
Verification of the ThunderArena/ans simulation programs (`src/iot.cc`,
`src/security.cc`) against their natural-language specification.

The two programs are ns-3 scenario drivers.  The parts of the programs that
compute anything (trace callbacks, counters, the final metric formulas, the
command-line handling and the stop-time selection) are embedded below as pure
Lean functions; the external simulation framework (channel, MAC, energy drain)
only determines *which* trace firings occur, so a run is represented by the
data those firings carry (the list of source addresses received at the hub,
the per-node energy readings, the number of sink receptions).

Conventions: C++ `double` values that the programs manipulate are embedded as
`ℚ` (every constant appearing in the programs and in the claims is exactly
representable); unsigned machine integers are `ℕ` with explicit `% 2 ^ w`
where a wrap can matter, and the C++ conversion `double → uint64_t` is partial
(`Option ℕ`): it is undefined behaviour when the truncated value is not
representable, which the embedding makes explicit with `none`.
-/

set_option autoImplicit false

/-- IPv4 addresses are opaque identifiers compared for equality
(`src/security.cc` compares `Ipv4Address` values with `std::find`). -/
abbrev Address := ℕ

/-! ### security.cc — access-control inspector (lines 33–54) -/

/-- Outcome of the access-control classification in `MyPacketRxCallback`
(`src/security.cc` lines 44–53): the branch taken on one received packet. -/
inductive Decision where
  | authorized
  | unauthorized
deriving DecidableEq, Repr

/-- The classification decision of `MyPacketRxCallback` (`src/security.cc`
lines 44–53): `std::find(g_acl.begin(), g_acl.end(), src) != g_acl.end()`
is exactly list membership of the source address in the allow-list. -/
def classify (acl : List Address) (src : Address) : Decision :=
  if src ∈ acl then Decision.authorized else Decision.unauthorized

/-- The two global counters of `src/security.cc` (lines 35–36,
`g_numAuthorized` and `g_numUnauthorized`). -/
structure SecCounters where
  numAuthorized : ℕ
  numUnauthorized : ℕ
deriving DecidableEq, Repr

/-- One firing of `MyPacketRxCallback` (`src/security.cc` lines 39–54):
the source address of the received packet is looked up in the allow-list and
exactly one of the two counters is incremented. -/
def MyPacketRxCallback (acl : List Address) (st : SecCounters) (src : Address) :
    SecCounters :=
  if src ∈ acl then
    { st with numAuthorized := st.numAuthorized + 1 }
  else
    { st with numUnauthorized := st.numUnauthorized + 1 }

/-- The counter state after a run in which the hub's receive trace fired once
for each address in `srcs`, in order; both counters start at 0
(`src/security.cc` lines 35–36) and nothing but `MyPacketRxCallback`
modifies them. -/
def processRx (acl : List Address) (srcs : List Address) : SecCounters :=
  srcs.foldl (MyPacketRxCallback acl) ⟨0, 0⟩

/-! ### Helper lemmas about the counters -/

lemma foldl_rx_counts (acl : List Address) (srcs : List Address)
    (st : SecCounters) :
    (srcs.foldl (MyPacketRxCallback acl) st).numAuthorized =
      st.numAuthorized + srcs.countP (fun s => decide (s ∈ acl)) ∧
    (srcs.foldl (MyPacketRxCallback acl) st).numUnauthorized =
      st.numUnauthorized + srcs.countP (fun s => !decide (s ∈ acl)) := by
  induction srcs generalizing st with
  | nil => simp
  | cons x xs ih =>
    by_cases hx : x ∈ acl <;>
      simp only [List.foldl_cons, MyPacketRxCallback, if_pos, if_neg, hx,
        ite_true, ite_false, List.countP_cons, decide_eq_true_eq] <;>
      rcases ih (if x ∈ acl then
          { st with numAuthorized := st.numAuthorized + 1 }
        else
          { st with numUnauthorized := st.numUnauthorized + 1 }) with ⟨h1, h2⟩ <;>
      simp [hx] at h1 h2 <;>
      constructor <;> simp [h1, h2, hx] <;> omega

lemma processRx_numAuthorized (acl : List Address) (srcs : List Address) :
    (processRx acl srcs).numAuthorized =
      srcs.countP (fun s => decide (s ∈ acl)) := by
  have h := foldl_rx_counts acl srcs ⟨0, 0⟩
  simpa [processRx] using h.1

lemma processRx_numUnauthorized (acl : List Address) (srcs : List Address) :
    (processRx acl srcs).numUnauthorized =
      srcs.countP (fun s => !decide (s ∈ acl)) := by
  have h := foldl_rx_counts acl srcs ⟨0, 0⟩
  simpa [processRx] using h.2

lemma countP_add_countP_not (p : Address → Bool) (l : List Address) :
    l.countP p + l.countP (fun s => !p s) = l.length := by
  induction l with
  | nil => simp
  | cons x xs ih =>
    by_cases hx : p x = true <;> simp [List.countP_cons, hx] <;> omega

lemma countP_le_count (p : Address → Bool) (a : Address) (l : List Address)
    (h : ∀ x ∈ l, p x = true → x = a) : l.countP p ≤ l.count a := by
  induction l with
  | nil => simp
  | cons x xs ih =>
    have ih' := ih (fun y hy hp => h y (List.mem_cons_of_mem x hy) hp)
    by_cases hp : p x = true
    · have hxa : x = a := h x (List.mem_cons_self x xs) hp
      subst hxa
      simp [List.countP_cons, List.count_cons, hp]
      omega
    · simp [List.countP_cons, List.count_cons, hp]
      split <;> omega

lemma countP_mem_singleton (a : Address) (l : List Address) :
    l.countP (fun s => decide (s ∈ [a])) = l.count a := by
  have hp : (fun s : Address => decide (s ∈ [a])) =
      (fun s : Address => decide (s = a)) := by
    funext s
    simp [List.mem_singleton]
  rw [hp]
  induction l with
  | nil => simp
  | cons x xs ih =>
    by_cases hx : x = a <;>
      simp [List.countP_cons, List.count_cons, hx, ih]

/-! ### Claim theorems for the access-control inspector -/

/-- C3. The Access Control Inspector classifies a received packet
`Authorized` exactly when its source address is a member of the allow-list
and `Unauthorized` otherwise, and the effect of one callback firing on the
counter state is determined solely by the allow-list and the carried address
(the decision does not read the mutable counters, so it is stateless per
call and deterministic across runs with identical inputs). -/
theorem classify_authorized_iff_mem (acl : List Address) (src : Address)
    (st : SecCounters) :
    (classify acl src = Decision.authorized ↔ src ∈ acl) ∧
    (classify acl src = Decision.unauthorized ↔ src ∉ acl) ∧
    MyPacketRxCallback acl st src =
      ⟨st.numAuthorized +
          (if classify acl src = Decision.authorized then 1 else 0),
       st.numUnauthorized +
          (if classify acl src = Decision.unauthorized then 1 else 0)⟩ := by
  by_cases h : src ∈ acl <;>
    simp [classify, MyPacketRxCallback, h]

/-- Witness for `classify_authorized_iff_mem` at a concrete allow-list,
address and counter state. -/
theorem classify_authorized_iff_mem_witness :
    classify [5] 5 = Decision.authorized ∧
    classify [5] 7 = Decision.unauthorized :=
  ⟨(classify_authorized_iff_mem [5] 5 ⟨0, 0⟩).1.mpr (by decide),
   (classify_authorized_iff_mem [5] 7 ⟨0, 0⟩).2.1.mpr (by decide)⟩

/-- C4. After any run, the authorized count plus the unauthorized count
equals the total number of receive-trace firings at the hub: each firing of
`MyPacketRxCallback` increments exactly one of the two counters, both start
at zero, and nothing else modifies them. -/
theorem authorized_add_unauthorized_eq_received (acl : List Address)
    (srcs : List Address) :
    (processRx acl srcs).numAuthorized + (processRx acl srcs).numUnauthorized
      = srcs.length := by
  rw [processRx_numAuthorized, processRx_numUnauthorized]
  exact countP_add_countP_not _ srcs

/-- C6. In the access-control scenario of `src/security.cc` (allow-list
containing exactly the authorized client's address, lines 139–140; the
authorized client configured for at most 5 packets, line 158; the rogue for
at most 3, line 168), a run in which every packet received at the hub comes
from one of the two clients, with at most 5 receptions from the authorized
client and at most 3 from the rogue, ends with `authorizedCount ≤ 5` and
`unauthorizedCount ≤ 3`, and every packet classified `Unauthorized` carries
the rogue's address, never the authorized client's. -/
theorem security_scenario_counts (clientIp rogueIp : Address)
    (srcs : List Address)
    (hsources : ∀ s ∈ srcs, s = clientIp ∨ s = rogueIp)
    (hclient : srcs.count clientIp ≤ 5)
    (hrogue : srcs.count rogueIp ≤ 3) :
    (processRx [clientIp] srcs).numAuthorized ≤ 5 ∧
    (processRx [clientIp] srcs).numUnauthorized ≤ 3 ∧
    (∀ s ∈ srcs, classify [clientIp] s = Decision.unauthorized →
      s = rogueIp) := by
  have hnotmem : ∀ s ∈ srcs, (!decide (s ∈ [clientIp])) = true → s = rogueIp := by
    intro s hs hdec
    rcases hsources s hs with h | h
    · subst h
      simp at hdec
    · exact h
  refine ⟨?_, ?_, ?_⟩
  · rw [processRx_numAuthorized, countP_mem_singleton]
    exact le_trans (le_refl _) (le_trans (Nat.le_of_eq rfl) hclient)
  · rw [processRx_numUnauthorized]
    exact le_trans (countP_le_count _ rogueIp srcs hnotmem) hrogue
  · intro s hs hclass
    have hmem : s ∉ [clientIp] := by
      intro hmemc
      have hsc : s = clientIp := by simpa using hmemc
      subst hsc
      simp [classify] at hclass
    rcases hsources s hs with h | h
    · exact absurd (by simp [h]) hmem
    · exact h

/-- Witness for `security_scenario_counts`: a concrete run in which the hub
receives two packets from the authorized client (address 1) and one from the
rogue (address 2). -/
theorem security_scenario_counts_witness :
    (∀ s ∈ ([1, 2, 1] : List Address), s = 1 ∨ s = 2) ∧
    (([1, 2, 1] : List Address).count 1 ≤ 5) ∧
    (([1, 2, 1] : List Address).count 2 ≤ 3) ∧
    ((processRx [1] [1, 2, 1]).numAuthorized ≤ 5 ∧
     (processRx [1] [1, 2, 1]).numUnauthorized ≤ 3 ∧
     (∀ s ∈ ([1, 2, 1] : List Address),
        classify [1] s = Decision.unauthorized → s = 2)) :=
  ⟨by decide, by decide, by decide,
   security_scenario_counts 1 2 [1, 2, 1] (by decide) (by decide) (by decide)⟩

/-! ### iot.cc — metric formulas (lines 160–170) -/

/-- The C++ conversion `double → uint64_t` (the initialisation on
`src/iot.cc` line 160): the value is truncated toward zero; when the
truncated value cannot be represented in `uint64_t` (the value is ≤ -1 or
≥ 2^64) the conversion is undefined behaviour, embedded as `none`. -/
def cppDoubleToUInt64 (x : ℚ) : Option ℕ :=
  if 0 ≤ x then
    (if ⌊x⌋ < (2 : ℤ) ^ 64 then some ⌊x⌋.toNat else none)
  else
    (if -1 < x then some 0 else none)

/-- `src/iot.cc` line 160:
`uint64_t totalTxPackets = nIot * packetRate * (simulationTime - 1.0);`
with `nIot` and `packetRate` of type `uint32_t` (their product wraps at
`2 ^ 32`) and `simulationTime` a `double`.  The count is analytic: it is a
function of the configured schedule parameters only — the flows start at
1.0 s and stop at `simulationTime` (lines 115–116), so `simulationTime - 1`
is the active-window length. -/
def totalTxPackets (nIot packetRate : ℕ) (simulationTime : ℚ) : Option ℕ :=
  cppDoubleToUInt64 ((((nIot * packetRate) % 2 ^ 32 : ℕ) : ℚ) *
    (simulationTime - 1))

/-- `src/iot.cc` line 161:
`double pdr = (totalTxPackets > 0) ? ((double)g_packetsReceived / totalTxPackets) * 100.0 : 0;`
where `g_packetsReceived` counts the firings of `RxCallback`
(lines 17–23). -/
def pdr (g_packetsReceived totalTx : ℕ) : ℚ :=
  if 0 < totalTx then
    ((g_packetsReceived : ℚ) / (totalTx : ℚ)) * 100
  else
    0

/-- The remaining energy of one node's `BasicEnergySource` at the end of the
run: the source is created holding `initialEnergyJ` (`src/iot.cc` line 121)
and each subsequent energy-level change event sets a new value (each such
change also fires the `RemainingEnergy` trace, line 134), so
`GetRemainingEnergy()` on line 168 returns the last changed value, or the
initial energy when no change event ever occurred for that node. -/
def finalRemaining (initialEnergyJ : ℚ) (changes : List ℚ) : ℚ :=
  changes.getLast?.getD initialEnergyJ

/-- The summand on `src/iot.cc` line 168:
`initialEnergyJ - source->GetRemainingEnergy()` for one node, the node's
energy readings being the list of its energy-level change values. -/
def energyConsumed (initialEnergyJ : ℚ) (changes : List ℚ) : ℚ :=
  initialEnergyJ - finalRemaining initialEnergyJ changes

/-- `src/iot.cc` lines 163–169: the loop accumulating
`totalEnergyConsumed` over the endpoint (IoT) nodes; `nodeEnergyLogs` has
one entry per endpoint node. -/
def totalEnergyConsumed (initialEnergyJ : ℚ)
    (nodeEnergyLogs : List (List ℚ)) : ℚ :=
  (nodeEnergyLogs.map (energyConsumed initialEnergyJ)).sum

/-- `src/iot.cc` line 170:
`double avgEnergyConsumed = (nIot > 0) ? (totalEnergyConsumed / nIot) : 0;`
(the loop runs over `iotNodes.GetN() = nIot` nodes, so the divisor equals
the number of per-node logs). -/
def avgEnergyConsumed (initialEnergyJ : ℚ)
    (nodeEnergyLogs : List (List ℚ)) : ℚ :=
  if 0 < nodeEnergyLogs.length then
    totalEnergyConsumed initialEnergyJ nodeEnergyLogs /
      (nodeEnergyLogs.length : ℚ)
  else
    0

/-- The figures printed by `src/iot.cc` lines 172–179. -/
structure IotSummary where
  totalSent : ℕ
  totalReceived : ℕ
  pdrPercent : ℚ
  avgEnergy : ℚ
deriving DecidableEq, Repr

/-- The run summary computed by `src/iot.cc` lines 160–170 from the
configuration and from what the run produced: `g_packetsReceived` sink
receptions at the hub and one energy-reading log per endpoint node.
`none` when the conversion on line 160 is undefined behaviour. -/
def iotSummarize (nIot packetRate : ℕ)
    (simulationTime initialEnergyJ : ℚ) (g_packetsReceived : ℕ)
    (nodeEnergyLogs : List (List ℚ)) : Option IotSummary :=
  (totalTxPackets nIot packetRate simulationTime).map (fun sent =>
    ⟨sent, g_packetsReceived, pdr g_packetsReceived sent,
     avgEnergyConsumed initialEnergyJ nodeEnergyLogs⟩)

/-! ### Claim theorems for the iot.cc metrics -/

/-- C1 (amended). The delivery ratio equals `received / sent × 100` when the
analytic sent count is positive and is 0 when it is 0; it is always ≥ 0, and
it is ≤ 100 whenever the received count does not exceed the sent count (the
code does not enforce `received ≤ sent`, so the upper bound is conditional on
it). -/
theorem pdr_formula_and_bounds (g_packetsReceived totalTx : ℕ) :
    (0 < totalTx →
      pdr g_packetsReceived totalTx =
        ((g_packetsReceived : ℚ) / (totalTx : ℚ)) * 100) ∧
    (totalTx = 0 → pdr g_packetsReceived totalTx = 0) ∧
    0 ≤ pdr g_packetsReceived totalTx ∧
    (g_packetsReceived ≤ totalTx → pdr g_packetsReceived totalTx ≤ 100) := by
  refine ⟨fun h => by simp [pdr, h], fun h => by simp [pdr, h], ?_, ?_⟩
  · unfold pdr
    split
    · positivity
    · exact le_refl 0
  · intro hle
    unfold pdr
    split
    · have hpos : (0 : ℚ) < (totalTx : ℚ) := by
        exact_mod_cast (by assumption : 0 < totalTx)
      have h1 : (g_packetsReceived : ℚ) / (totalTx : ℚ) ≤ 1 :=
        div_le_one_of_le₀ (by exact_mod_cast hle) (le_of_lt hpos)
      calc (g_packetsReceived : ℚ) / (totalTx : ℚ) * 100 ≤ 1 * 100 :=
            mul_le_mul_of_nonneg_right h1 (by norm_num)
        _ = 100 := by norm_num
    · norm_num

/-- Witness for `pdr_formula_and_bounds` at `received = 160`,
`sent = 180`. -/
theorem pdr_formula_and_bounds_witness :
    (0 < 180) ∧ ((160 : ℕ) ≤ 180) ∧
    pdr 160 180 = ((160 : ℚ) / (180 : ℚ)) * 100 ∧
    0 ≤ pdr 160 180 ∧ pdr 160 180 ≤ 100 :=
  ⟨by decide, by decide,
   (pdr_formula_and_bounds 160 180).1 (by decide),
   (pdr_formula_and_bounds 160 180).2.2.1,
   (pdr_formula_and_bounds 160 180).2.2.2 (by decide)⟩

/-- C1 (counterexample to the claim as stated). The program computes the
delivery ratio without clamping and without any guarantee that the empirical
received count stays below the analytic sent count: in a run state with 200
sink receptions and analytic sent count 180 (sent > 0), the reported ratio
is 1000/9 ≈ 111.1, strictly above 100. -/
theorem pdr_exceeds_hundred :
    pdr 200 180 = 1000 / 9 ∧ 100 < pdr 200 180 := by
  constructor <;> norm_num [pdr]

/-- C2. The total-packets-sent figure is analytic: for Scenario A's defaults
(`nIot = 20`, `packetRate = 1`, `simulationTime = 10`, flows active on
[1 s, 10 s]) it is 20 × 1 × (10 − 1) = 180, and the `totalSent` field of the
run summary equals 180 for every value of the empirical reception count and
of the energy logs — no send-side observation enters the computation. -/
theorem totalTxPackets_analytic (g_packetsReceived : ℕ)
    (nodeEnergyLogs : List (List ℚ)) :
    totalTxPackets 20 1 10 = some 180 ∧
    (iotSummarize 20 1 10 1 g_packetsReceived nodeEnergyLogs).map
      IotSummary.totalSent = some 180 := by
  have h180 : totalTxPackets 20 1 10 = some 180 := by
    have hx : ((((20 * 1) % 2 ^ 32 : ℕ) : ℚ) * ((10 : ℚ) - 1)) = (180 : ℚ) := by
      norm_num
    rw [totalTxPackets, hx]
    rw [cppDoubleToUInt64]
    rw [if_pos (by norm_num)]
    have hfl : ⌊(180 : ℚ)⌋ = 180 := by
      rw [Int.floor_eq_iff]
      norm_num
    rw [hfl]
    rfl
  refine ⟨h180, ?_⟩
  simp [iotSummarize, h180]

/-- C5. Per-node energy consumption is initial energy minus the node's final
remaining-energy reading: a node whose last reading is `r` consumes
`initialEnergyJ − r`, and a node with no reading consumes
`initialEnergyJ − initialEnergyJ = 0`; the reported average is the mean over
the endpoint nodes (the total divided by their number, stated here in the
nonempty `cons` form) and is 0 when there are no endpoint nodes. -/
theorem avg_energy_is_mean (initialEnergyJ r : ℚ) (changes : List ℚ)
    (l : List ℚ) (ls : List (List ℚ)) :
    energyConsumed initialEnergyJ (changes ++ [r]) = initialEnergyJ - r ∧
    energyConsumed initialEnergyJ [] = 0 ∧
    avgEnergyConsumed initialEnergyJ [] = 0 ∧
    avgEnergyConsumed initialEnergyJ (l :: ls) * ((l :: ls).length : ℚ) =
      totalEnergyConsumed initialEnergyJ (l :: ls) := by
  refine ⟨?_, ?_, ?_, ?_⟩
  · simp [energyConsumed, finalRemaining]
  · simp [energyConsumed, finalRemaining]
  · simp [avgEnergyConsumed]
  · rw [avgEnergyConsumed, if_pos (by simp)]
    have hne : (((l :: ls).length : ℚ)) ≠ 0 := by
      simp only [List.length_cons, Nat.cast_add, Nat.cast_one]
      positivity
    field_simp

/-- C9 (evaluation at the failing input, and the agreeing boundary case).
With the defaults `nIot = 20`, `packetRate = 1` and a configured duration of
0.5 s — every flow's window [1 s, 0.5 s] is empty — line 160 of
`src/iot.cc` computes `20 × 1 × (0.5 − 1) = −10` and converts a negative
`double` to `uint64_t`, which is undefined behaviour, not the value 0 the
claim requires; at duration exactly 1 s the computed total is 0 as
claimed. -/
theorem totalTxPackets_negative_window :
    totalTxPackets 20 1 (1 / 2) = none ∧
    totalTxPackets 20 1 1 = some 0 := by
  constructor
  · have hx : ((((20 * 1) % 2 ^ 32 : ℕ) : ℚ) * ((1 / 2 : ℚ) - 1)) =
        (-10 : ℚ) := by
      norm_num
    rw [totalTxPackets, hx, cppDoubleToUInt64]
    rw [if_neg (by norm_num), if_neg (by norm_num)]
  · have hx : ((((20 * 1) % 2 ^ 32 : ℕ) : ℚ) * ((1 : ℚ) - 1)) = (0 : ℚ) := by
      norm_num
    rw [totalTxPackets, hx, cppDoubleToUInt64]
    rw [if_pos (by norm_num)]
    norm_num

/-! ### Command-line handling, stop time and trace binding -/

/-- `src/iot.cc` lines 35–44: the configuration record after command-line
parsing.  Defaults are `nIot = 20`, `simulationTime = 10.0`,
`initialEnergyJ = 1.0`, `distance = 30.0`, `packetRate = 1`; only `nIot` and
`simulationTime` are registered with `cmd.AddValue`, so only they can be
overridden from the command line. -/
structure IotConfig where
  nIot : ℕ
  simulationTime : ℚ
  initialEnergyJ : ℚ
  distance : ℚ
  packetRate : ℕ
deriving DecidableEq, Repr

/-- `src/iot.cc` lines 41–44: command-line parsing for the IoT scenario.
The result type `Except String IotConfig` is the channel on which the
claimed `ConfigurationError` would travel; the code performs no validation
of the supplied values (there is no check between `cmd.Parse` on line 44 and
the node creation on lines 46–49), so parsing always succeeds with the
supplied values stored unchanged. -/
def iotParseCmd (suppliedNIot : ℕ) (suppliedSimulationTime : ℚ) :
    Except String IotConfig :=
  Except.ok ⟨suppliedNIot, suppliedSimulationTime, 1, 30, 1⟩

/-- `src/iot.cc` lines 46–49: topology construction creates 1 hub (WAP) node
plus `nIot` endpoint nodes from whatever configuration parsing produced. -/
def iotTopologyNodeCount (cfg : IotConfig) : ℕ :=
  1 + cfg.nIot

/-- `src/security.cc` lines 61–64: command-line parsing for the security
scenario (default `simTime = 8.0`); again no validation follows
`cmd.Parse`, so any supplied value is accepted. -/
def secParseCmd (suppliedSimTime : ℚ) : Except String ℚ :=
  Except.ok suppliedSimTime

/-- `src/security.cc` line 176: `Simulator::Stop(Seconds(3.0));` — the stop
time handed to the event loop is the literal 3.0 s; the parsed `simTime`
parameter does not occur in the expression (it is never read after line
64). -/
def securityStopTime (simTimeSec : ℚ) : ℚ :=
  3

/-- `src/iot.cc` line 157: `Simulator::Stop(Seconds(simulationTime));` — the
IoT scenario hands the configured duration to the event loop. -/
def iotStopTime (simulationTime : ℚ) : ℚ :=
  simulationTime

/-- Modelled from the spec: the external framework's event loop
(`Simulator::Run` after `Simulator::Stop(stopTime)`, spec §5) dispatches the
queued events whose timestamp is at most `stopTime` in nondecreasing
timestamp order and discards the events queued beyond `stopTime`; the
recorded observations are exactly the executed firings.  The loop itself is
part of the external framework, not of `src/`. -/
def runEventLoop (stopTime : ℚ) (queued : List (ℚ × Address)) :
    List (ℚ × Address) :=
  queued.filter (fun e => decide (e.1 ≤ stopTime))

/-- `src/security.cc` lines 150–154 and 176–177: each server device's
`TraceConnectWithoutContext("PhyRxEnd", …)` call returns a `Bool` success
flag that the code discards (the call is an expression statement), and
`Simulator::Run()` is then reached unconditionally.  The result is the list
of discarded flags (one per server device, `true` exactly when the named
trace source exists on the device) paired with whether the program proceeds
to run — which is `true` on every path. -/
def securityTraceSetup (availableTraceSources : List String)
    (serverDeviceCount : ℕ) : List Bool × Bool :=
  ((List.range serverDeviceCount).map
      (fun _ => decide ("PhyRxEnd" ∈ availableTraceSources)),
   true)

/-! ### Claim theorems for stop time, configuration and trace binding -/

/-- C7 (evaluation at the failing input). The security scenario's stop time
is the hardcoded constant 3.0 s for every configured duration: with the
configured duration 2 s the loop is stopped at 3 s, so a receive firing
queued at 2.5 s (the rogue's first send) is executed and recorded although
its timestamp 2.5 exceeds the configured duration 2 — the configured
simulation-duration parameter is not the run's temporal bound. -/
theorem security_stop_time_hardcoded :
    (∀ simTimeSec : ℚ, securityStopTime simTimeSec = 3) ∧
    securityStopTime 2 = 3 ∧
    runEventLoop (securityStopTime 2) [(5 / 2, 2)] = [(5 / 2, 2)] ∧
    2 < (5 / 2 : ℚ) := by
  refine ⟨fun _ => rfl, rfl, ?_, by norm_num⟩
  norm_num [runEventLoop, securityStopTime]

/-- C8 (counterexample to the claim as stated). Supplying the non-positive
values `nIot = 0` and `simulationTime = 0` does not fail: parsing returns
the configuration unchanged with no `ConfigurationError`, and topology
construction proceeds (building 1 + 0 nodes); the security scenario likewise
accepts a negative duration. -/
theorem nonpositive_config_accepted :
    iotParseCmd 0 0 = Except.ok ⟨0, 0, 1, 30, 1⟩ ∧
    (iotParseCmd 0 0).isOk = true ∧
    iotTopologyNodeCount ⟨0, 0, 1, 30, 1⟩ = 1 ∧
    secParseCmd (-1) = Except.ok (-1) := by
  refine ⟨rfl, rfl, rfl, rfl⟩

/-- C8 (amended). Neither scenario validates its command-line parameters:
parsing accepts every supplied value — non-positive ones included — stores
it unchanged, and the unvalidated value reaches topology construction; no
error path exists before the topology is built. -/
theorem cli_parsing_never_fails (suppliedNIot : ℕ)
    (suppliedSimulationTime suppliedSimTime : ℚ) :
    iotParseCmd suppliedNIot suppliedSimulationTime =
      Except.ok ⟨suppliedNIot, suppliedSimulationTime, 1, 30, 1⟩ ∧
    iotTopologyNodeCount ⟨suppliedNIot, suppliedSimulationTime, 1, 30, 1⟩ =
      1 + suppliedNIot ∧
    secParseCmd suppliedSimTime = Except.ok suppliedSimTime := by
  refine ⟨rfl, rfl, rfl⟩

/-- C10 (counterexample to the claim as stated). On a server device whose
trace-source list does not contain `PhyRxEnd`, the binding attempt fails
(the discarded flag is `false`) and the program nevertheless proceeds to
`Simulator::Run` exactly as when the binding succeeds — the failure is
silent and does not prevent the run. -/
theorem failed_trace_bind_run_proceeds :
    (securityTraceSetup [] 1).1 = [false] ∧
    (securityTraceSetup [] 1).2 = true ∧
    (securityTraceSetup ["PhyRxEnd"] 1).1 = [true] ∧
    (securityTraceSetup ["PhyRxEnd"] 1).2 = true := by
  refine ⟨by decide, rfl, by decide, rfl⟩

/-- C10 (amended). The direct per-object trace connections discard the
framework's success flag: the run is reached for every trace-source list
(binding failure included), and each discarded flag is `true` exactly when
the requested `PhyRxEnd` trace source exists on the device — a failed
connection is silently ignored rather than surfaced. -/
theorem trace_bind_result_discarded (availableTraceSources : List String)
    (serverDeviceCount : ℕ) :
    (securityTraceSetup availableTraceSources serverDeviceCount).2 = true ∧
    ((securityTraceSetup availableTraceSources serverDeviceCount).1 =
      List.replicate serverDeviceCount
        (decide ("PhyRxEnd" ∈ availableTraceSources))) := by
  refine ⟨rfl, ?_⟩
  simp [securityTraceSetup, List.map_const']

/-- Witness for `trace_bind_result_discarded` at a concrete device list with
no matching trace source. -/
theorem trace_bind_result_discarded_witness :
    (securityTraceSetup [] 2).2 = true ∧
    (securityTraceSetup [] 2).1 = List.replicate 2 (decide ("PhyRxEnd" ∈ ([] : List String))) :=
  trace_bind_result_discarded [] 2
